import Mathlib

/-!
# Shallow embedding of the hostinger-arista-eos-manager service layer

This file embeds the pure computational core of the repository's service
modules into Lean 4 and proves properties about them:

* `src/services/routingConfig.js` — static-route and BGP parsers, route/BGP
  command builders, `getBgpConfig`;
* `src/services/aristaAPI.js` — `processSwitchData`, `formatUptime`;
* `src/services/connectionManager.js` — the in-memory session registry
  (`refreshSwitchData`, `refreshAllConnections`, `getAllSwitchData`);
* `src/services/interfaceConfig.js` — `processInterfaceData`;
* `src/services/vlanConfig.js` — `createVlan` command planning;
* `src/services/topologyService.js` — `buildNetworkTopology`, `positionNodes`.

JavaScript numbers are modelled as `ℚ` (with `Math.round`/`Math.floor`
spelled out), absent object fields as `Option`, thrown exceptions as
`Except String`, and the remote transport as an explicit oracle argument.
Async operations are modelled by their sequential effect on the state they
mutate.  JS falsiness of `0`, `""`, `null`/`undefined` is modelled by the
`jsOr...` helpers below.
-/

set_option maxHeartbeats 1000000

/-! ## JavaScript primitive helpers -/

/-- JS `Math.round`: round half toward positive infinity. -/
def jsRound (q : ℚ) : ℤ := Int.floor (q + 1/2)

/-- JS `Math.floor`. -/
def jsFloor (q : ℚ) : ℤ := Int.floor q

/-- Truncation toward zero, as JS `%` and `parseInt` use. -/
def jsTrunc (q : ℚ) : ℤ := if q < 0 then Int.ceil q else Int.floor q

/-- JS `a % b` (sign follows the dividend). -/
def jsMod (a b : ℚ) : ℚ := a - b * (jsTrunc (a / b) : ℚ)

/-- JS `a || b` for numbers held in an optional field: `0`, `null` and
`undefined` are falsy. -/
def jsOrQ (a : Option ℚ) (b : ℚ) : ℚ :=
  match a with
  | some q => if q = 0 then b else q
  | none => b

/-- JS `a || b` for a `Nat`-valued field (`0` is falsy). -/
def jsNumOr (a : Option Nat) (b : Nat) : Nat :=
  match a with
  | some n => if n = 0 then b else n
  | none => b

/-- JS `a || null` for a numeric field: `0` collapses to `null`. -/
def jsNumOrNull (a : Option Nat) : Option Nat :=
  match a with
  | some 0 => none
  | x => x

/-- JS `a || b` for a string field (`""` is falsy). -/
def jsStrOr (a : Option String) (b : String) : String :=
  match a with
  | some s => if s = "" then b else s
  | none => b

/-- Whether a list of characters starts with the given pattern. -/
def listIsPfx : List Char → List Char → Bool
  | [], _ => true
  | _ :: _, [] => false
  | p :: ps, c :: cs => p == c && listIsPfx ps cs

/-- Whether the pattern occurs somewhere in the character list
(JS `String.prototype.includes`). -/
def listHasSub (pat : List Char) : List Char → Bool
  | [] => listIsPfx pat []
  | c :: cs => listIsPfx pat (c :: cs) || listHasSub pat cs

/-- JS `s.includes(pat)`. -/
def strContains (s pat : String) : Bool := listHasSub pat.toList s.toList

/-- JS `s.startsWith(pat)`. -/
def strStarts (s pat : String) : Bool := listIsPfx pat.toList s.toList

/-- ASCII lowercasing (JS `toLowerCase` on the inputs in play). -/
def asciiLowerChar (c : Char) : Char :=
  if 'A' ≤ c ∧ c ≤ 'Z' then Char.ofNat (c.toNat + 32) else c

/-- ASCII `s.toLowerCase()`. -/
def asciiLower (s : String) : String := String.mk (s.toList.map asciiLowerChar)

/-- Splitting on a nonempty literal separator (JS `String.prototype.split`
with a string argument).  `fuel` bounds the recursion; callers pass the
input length plus one. -/
def splitLitAux (sep : List Char) : Nat → List Char → List Char → List (List Char)
  | 0, _, acc => [acc.reverse]
  | _ + 1, [], acc => [acc.reverse]
  | fuel + 1, c :: rest, acc =>
    if listIsPfx sep (c :: rest) then
      acc.reverse :: splitLitAux sep fuel ((c :: rest).drop sep.length) []
    else splitLitAux sep fuel rest (c :: acc)

/-- JS `s.split(sep)` for a nonempty literal separator. -/
def splitLit (s sep : String) : List String :=
  (splitLitAux sep.toList (s.toList.length + 1) s.toList []).map String.mk

deriving instance DecidableEq for Except

/-- The whitespace class of the JS regex `\s` (ASCII part). -/
def jsWs (c : Char) : Bool :=
  c == ' ' || c == '\t' || c == '\n' || c == '\r' || c == '\x0b' || c == '\x0c'

/-- JS `s.trim()` (ASCII whitespace). -/
def jsTrim (s : String) : String :=
  String.mk (((s.toList.dropWhile jsWs).reverse.dropWhile jsWs).reverse)

/-- Numeric value of a run of decimal digits. -/
def digitsVal (cs : List Char) : Int :=
  cs.foldl (fun acc c => acc * 10 + (c.toNat - '0'.toNat : Int)) 0

/-- JS `parseInt(s)` restricted to base 10 (leading whitespace, optional
sign, maximal digit run, trailing garbage ignored; `none` is `NaN`).
The hexadecimal `0x` form is not modelled; no input in this development
uses it. -/
def jsParseInt (s : String) : Option Int :=
  let cs := s.toList.dropWhile jsWs
  let signRun : Bool × List Char :=
    match cs with
    | '-' :: rest => (true, rest)
    | '+' :: rest => (false, rest)
    | _ => (false, cs)
  let digits := signRun.2.takeWhile Char.isDigit
  if digits.isEmpty then none
  else if signRun.1 then some (-(digitsVal digits)) else some (digitsVal digits)

/-- Expect one specific character. -/
def eatChar (c : Char) : List Char → Option (List Char)
  | x :: rest => if x == c then some rest else none
  | [] => none

/-- Expect a literal character sequence. -/
def eatLit : List Char → List Char → Option (List Char)
  | [], cs => some cs
  | _ :: _, [] => none
  | p :: ps, c :: cs => if p == c then eatLit ps cs else none

/-- Greedy `\d+`: maximal nonempty digit run plus the rest. -/
def eatDigits (cs : List Char) : Option (List Char × List Char) :=
  let run := cs.takeWhile Char.isDigit
  if run.isEmpty then none else some (run, cs.dropWhile Char.isDigit)

/-- Greedy `\s+`, returning the consumed run and the rest. -/
def eatWsRun (cs : List Char) : Option (List Char × List Char) :=
  let run := cs.takeWhile jsWs
  if run.isEmpty then none else some (run, cs.dropWhile jsWs)

/-- Greedy `\s+`, keeping only the rest. -/
def eatWs1 (cs : List Char) : Option (List Char) :=
  (eatWsRun cs).map (·.2)

/-- `\d+\.\d+\.\d+\.\d+` with the matched text recovered as a string. -/
def eatIp (cs : List Char) : Option (String × List Char) := do
  let (a, r1) ← eatDigits cs
  let r2 ← eatChar '.' r1
  let (b, r3) ← eatDigits r2
  let r4 ← eatChar '.' r3
  let (c, r5) ← eatDigits r4
  let r6 ← eatChar '.' r5
  let (d, r7) ← eatDigits r6
  pure (String.mk a ++ "." ++ String.mk b ++ "." ++ String.mk c ++ "." ++ String.mk d, r7)

/-- `\d+\.\d+\.\d+\.\d+\/\d+` with the matched text recovered as a string. -/
def eatCidr (cs : List Char) : Option (String × List Char) := do
  let (ip, r1) ← eatIp cs
  let r2 ← eatChar '/' r1
  let (m, r3) ← eatDigits r2
  pure (ip ++ "/" ++ String.mk m, r3)

/-- Generic left-to-right scanner for a JS global+multiline regex whose
pattern is anchored at `^`: tries the matcher at every line-start position,
resuming after each match (`lastIndex` semantics).  The matcher reports
whether the position after the match is again at a line start.  `fuel`
bounds the recursion; callers pass the input length plus one. -/
def lineStartScan {α : Type} (m : List Char → Option (α × List Char × Bool)) :
    Nat → List Char → Bool → List α
  | 0, _, _ => []
  | _ + 1, [], _ => []
  | fuel + 1, c :: rest, atStart =>
    if atStart then
      match m (c :: rest) with
      | some (a, rest2, ls2) => a :: lineStartScan m fuel rest2 ls2
      | none => lineStartScan m fuel rest (c == '\n')
    else lineStartScan m fuel rest (c == '\n')

/-! ## Static route parser (`parseStaticRoutes`, routingConfig.js) -/

/-- One parsed static route, as pushed by `parseStaticRoutes`.
`prefixCidr` models the field named `prefix` in the source. -/
structure StaticRouteRecord where
  id : String
  prefixCidr : String
  nextHop : String
  adminDistance : Int
  metric : Int
  type : String
deriving DecidableEq, Repr

/-- The optional `\s+\[(\d+)\/(\d+)\]` group of the route regex. -/
def eatBracket (cs : List Char) : Option (Int × Int × List Char) := do
  let a ← eatWs1 cs
  let b ← eatChar '[' a
  let (dRun, c) ← eatDigits b
  let d ← eatChar '/' c
  let (mRun, e) ← eatDigits d
  let f ← eatChar ']' e
  pure (digitsVal dRun, digitsVal mRun, f)

/-- The `\s+(?:via\s+)?(\d+\.\d+\.\d+\.\d+)` tail of the route regex. -/
def eatRouteTail (cs : List Char) : Option (String × List Char) := do
  let r1 ← eatWs1 cs
  let viaPath : Option (String × List Char) := do
    let a ← eatLit ['v', 'i', 'a'] r1
    let b ← eatWs1 a
    eatIp b
  viaPath <|> eatIp r1

/-- One attempt of the route regex
`^S\s+(\d+\.\d+\.\d+\.\d+\/\d+)(?:\s+\[(\d+)\/(\d+)\])?\s+(?:via\s+)?(\d+\.\d+\.\d+\.\d+)`
at a line-start position.  A match always ends in a digit, so the position
after it is never a line start. -/
def matchRouteAt (cs : List Char) :
    Option ((String × String × Int × Int) × List Char × Bool) := do
  let s1 ← eatChar 'S' cs
  let s2 ← eatWs1 s1
  let (pfxStr, s3) ← eatCidr s2
  let withBracket : Option ((String × String × Int × Int) × List Char × Bool) := do
    let (d, m, s4) ← eatBracket s3
    let (nh, s5) ← eatRouteTail s4
    pure ((pfxStr, nh, d, m), s5, false)
  let withoutBracket : Option ((String × String × Int × Int) × List Char × Bool) := do
    let (nh, s5) ← eatRouteTail s3
    pure ((pfxStr, nh, 1, 0), s5, false)
  withBracket <|> withoutBracket

/-- `parseStaticRoutes` of routingConfig.js: scan the free-text output of
`show ip route static` for the route pattern, numbering the records
`static-1`, `static-2`, ... in match order.  A missing `[dist/metric]`
group defaults to distance 1 and metric 0. -/
def parseStaticRoutes (output : String) : List StaticRouteRecord :=
  let cs := output.toList
  let ms := lineStartScan matchRouteAt (cs.length + 1) cs true
  ms.enum.map (fun p =>
    { id := "static-" ++ toString (p.1 + 1)
      prefixCidr := p.2.1
      nextHop := p.2.2.1
      adminDistance := p.2.2.2.1
      metric := p.2.2.2.2
      type := "static" })

/-! ## Input validation (`isValidIpAddress`, `isValidPrefix`, routingConfig.js) -/

/-- One octet of the IP regex: `25[0-5]|2[0-4][0-9]|[01]?[0-9][0-9]?`,
anchored by the surrounding `^...$` and literal dots. -/
def isOctetStr (s : String) : Bool :=
  match s.toList with
  | [a] => a.isDigit
  | [a, b] => a.isDigit && b.isDigit
  | [a, b, c] =>
    (a == '2' && b == '5' && c.isDigit && c.toNat ≤ '5'.toNat) ||
    (a == '2' && b.isDigit && b.toNat ≤ '4'.toNat && c.isDigit) ||
    ((a == '0' || a == '1') && b.isDigit && c.isDigit)
  | _ => false

/-- `isValidIpAddress` of routingConfig.js. -/
def isValidIpAddress (ip : String) : Bool :=
  match splitLit ip "." with
  | [a, b, c, d] => isOctetStr a && isOctetStr b && isOctetStr c && isOctetStr d
  | _ => false

/-- `isValidPrefix` of routingConfig.js (CIDR shape check). -/
def isValidCidr (p : String) : Bool :=
  match splitLit p "/" with
  | [ip, maskStr] =>
    isValidIpAddress ip &&
      (match jsParseInt maskStr with
       | some m => decide (0 ≤ m) && decide (m ≤ 32)
       | none => false)
  | _ => false

/-! ## Configuration command planners

Each write operation in the services validates its inputs and then issues a
single `executeCommands` call.  A planner returns the exact command list
passed to `executeCommands`, or the validation error thrown before any
remote call is made — `Except.error` means `executeCommands` is never
invoked. -/

/-- Strip `'` and `"` (the services' quote sanitization). -/
def stripQuotes (s : String) : String :=
  String.mk (s.toList.filter (fun c => c != '\'' && c != '"'))

/-- `createVlan` of vlanConfig.js, as a command planner.  The VLAN id is
range-checked to 1–4094 before interpolation (callers pass a number, so
`parseInt(vlanId)` is the identity and `!vlanId` coincides with `< 1`). -/
def createVlanCmds (vlanId : Int) (vlanName : String) : Except String (List String) :=
  if vlanId < 1 ∨ vlanId > 4094 then
    .error "Invalid VLAN ID. Must be between 1-4094."
  else
    let sanitizedName := stripQuotes vlanName
    let nameCmd := if sanitizedName = "" then "" else "name " ++ sanitizedName
    .ok (List.filter (fun c => c ≠ "")
      ["configure", "vlan " ++ toString vlanId, nameCmd, "end"])

/-- `configureBgp` of routingConfig.js, as a command planner.  The ASN is
range-checked to 1–4294967295 (`!asn` coincides with `asn = 0 < 1`); a
falsy router id skips both its validation and its command. -/
def configureBgpCmds (asn : Int) (routerId : Option String) : Except String (List String) :=
  if asn < 1 ∨ asn > 4294967295 then
    .error "Invalid ASN. Must be between 1 and 4294967295"
  else
    let rid := jsStrOr routerId ""
    if rid ≠ "" ∧ isValidIpAddress rid = false then
      .error "Invalid router ID format. Must be a valid IP address"
    else
      .ok (["configure", "router bgp " ++ toString asn] ++
        (if rid ≠ "" then ["router-id " ++ rid] else []) ++ ["end"])

/-- `addStaticRoute` of routingConfig.js, as a command planner.  Prefix and
next hop are shape-checked; the administrative distance is interpolated
as-is (omitted when it equals the default 1), with no range check. -/
def addStaticRouteCmds (switchId prefixArg nextHop : String)
    (adminDistance : Int := 1) : Except String (List String) :=
  if switchId = "" then .error "No switch ID provided"
  else if prefixArg = "" ∨ nextHop = "" then .error "Prefix and next hop are required"
  else if isValidCidr prefixArg = false then
    .error "Invalid prefix format. Expected format: x.x.x.x/y"
  else if isValidIpAddress nextHop = false then
    .error "Invalid next hop IP address"
  else
    let distStr := if adminDistance ≠ 1 then toString adminDistance else ""
    let cmd := jsTrim ("ip route " ++ prefixArg ++ " " ++ nextHop ++ " " ++ distStr)
    .ok ["configure", cmd, "end"]

/-! ## BGP parsers and `getBgpConfig` (routingConfig.js) -/

/-- A neighbor entry of `bgpConfig.neighbors`.  The summary parser pushes
plain `{ip, remoteAsn}` objects; a successful neighbor-detail fetch
replaces the list with richer objects — two different JS shapes, hence the
sum type. -/
inductive BgpNeighborObj where
  | summary (ip : String) (remoteAsn : Int)
  | detail (ip : String) (remoteAsn : Option Int) (state : String) (uptime : String)
      (prefixesReceived : Int) (prefixesSent : Int)
deriving DecidableEq, Repr

/-- The object returned by `parseBgpSummary` / `getBgpConfig`. -/
structure BgpConfig where
  enabled : Bool
  asn : Option Int
  routerId : Option String
  neighbors : List BgpNeighborObj
deriving DecidableEq, Repr

/-- The all-disabled zero-value BGP object. -/
def zeroBgpConfig : BgpConfig :=
  { enabled := false, asn := none, routerId := none, neighbors := [] }

/-- One attempt of
`BGP router identifier (\d+\.\d+\.\d+\.\d+), local AS number (\d+)` at a
given position; the captured AS digits are folded to their numeric value
(the source applies `parseInt`, which cannot fail on a digit run). -/
def matchRouterIdAt (cs : List Char) : Option (String × Int) := do
  let r1 ← eatLit "BGP router identifier ".toList cs
  let (ip, r2) ← eatIp r1
  let r3 ← eatLit ", local AS number ".toList r2
  let (asnRun, _) ← eatDigits r3
  pure (ip, digitsVal asnRun)

/-- First match of an unanchored pattern (JS `String.prototype.match`
without the `g` flag): try the matcher at every position, left to right. -/
def firstMatch {α : Type} (m : List Char → Option α) : List Char → Option α
  | [] => m []
  | c :: rest =>
    match m (c :: rest) with
    | some a => some a
    | none => firstMatch m rest

/-- One attempt of the summary neighbor-row regex
`^(\d+\.\d+\.\d+\.\d+)\s+\d+\s+(\d+)\s+` at a line start.  The trailing
`\s+` is greedy, so the position after the match is at a line start
exactly when the last whitespace character consumed is a newline. -/
def matchNbRowAt (cs : List Char) : Option ((String × Int) × List Char × Bool) := do
  let (ip, r1) ← eatIp cs
  let r2 ← eatWs1 r1
  let (_, r3) ← eatDigits r2
  let r4 ← eatWs1 r3
  let (asnRun, r5) ← eatDigits r4
  let (wsRun, r6) ← eatWsRun r5
  pure ((ip, digitsVal asnRun), r6, wsRun.getLast? == some '\n')

/-- `parseBgpSummary` of routingConfig.js: early-return the zero object on
`"BGP not active"`; otherwise extract router id + local ASN from the first
router-identifier line (if any) and scan all summary rows for neighbors. -/
def parseBgpSummary (output : String) : BgpConfig :=
  if strContains output "BGP not active" then zeroBgpConfig
  else
    let cs := output.toList
    let base :=
      match firstMatch matchRouterIdAt cs with
      | some (rid, asnVal) =>
        { zeroBgpConfig with enabled := true, routerId := some rid, asn := some asnVal }
      | none => zeroBgpConfig
    let rows := lineStartScan matchNbRowAt (cs.length + 1) cs true
    { base with neighbors := rows.map (fun p => BgpNeighborObj.summary p.1 p.2) }

/-- `Remote AS (\d+)` searched anywhere in a neighbor section. -/
def matchRemoteAsAt (cs : List Char) : Option Int := do
  let r1 ← eatLit "Remote AS ".toList cs
  let (run, _) ← eatDigits r1
  pure (digitsVal run)

/-- `BGP state = (\w+)` searched anywhere in a neighbor section. -/
def matchBgpStateAt (cs : List Char) : Option String := do
  let r1 ← eatLit "BGP state = ".toList cs
  let run := r1.takeWhile (fun c => c.isAlphanum || c == '_')
  if run.isEmpty then none else pure (String.mk run)

/-- `Uptime: ([\d:]+)` searched anywhere in a neighbor section. -/
def matchUptimeAt (cs : List Char) : Option String := do
  let r1 ← eatLit "Uptime: ".toList cs
  let run := r1.takeWhile (fun c => c.isDigit || c == ':')
  if run.isEmpty then none else pure (String.mk run)

/-- `(\d+) accepted prefixes` searched anywhere in a neighbor section. -/
def matchAcceptedAt (cs : List Char) : Option Int := do
  let (run, r1) ← eatDigits cs
  let _ ← eatLit " accepted prefixes".toList r1
  pure (digitsVal run)

/-- `parseBgpNeighbors` of routingConfig.js: split on the literal
`"BGP neighbor is "`, and for each section whose head is an IP address
extract remote AS, state (default `"Idle"`), uptime (default `"never"`)
and accepted-prefix count (default 0). -/
def parseBgpNeighbors (output : String) : List BgpNeighborObj :=
  ((splitLit output "BGP neighbor is ").drop 1).filterMap (fun sect =>
    let cs := sect.toList
    match eatIp cs with
    | none => none
    | some (ip, _) =>
      some (BgpNeighborObj.detail ip
        (firstMatch matchRemoteAsAt cs)
        ((firstMatch matchBgpStateAt cs).getD "Idle")
        ((firstMatch matchUptimeAt cs).getD "never")
        ((firstMatch matchAcceptedAt cs).getD 0)
        0))

/-- JS truthiness of `bgpConfig.asn` (`null` and `0` are falsy). -/
def jsAsnTruthy : Option Int → Bool
  | some a => a != 0
  | none => false

/-- The transport as seen by `getBgpConfig`: each `executeCommands` call
either rejects with an error message, or resolves; `ok none` stands for a
resolved call whose `result[0].output` is missing or empty (falsy). -/
structure BgpTransport where
  summary : Except String (Option String)
  neighborsOut : Except String (Option String)

/-- The `try` body of `getBgpConfig`, paired with the number of
`executeCommands` calls it makes. -/
def getBgpConfigBody (t : BgpTransport) : Except String BgpConfig × Nat :=
  match t.summary with
  | .error e => (.error e, 1)
  | .ok none => (.ok zeroBgpConfig, 1)
  | .ok (some output) =>
    let cfg := parseBgpSummary output
    if jsAsnTruthy cfg.asn then
      match t.neighborsOut with
      | .error e => (.error e, 2)
      | .ok none => (.ok cfg, 2)
      | .ok (some nout) => (.ok { cfg with neighbors := parseBgpNeighbors nout }, 2)
    else (.ok cfg, 1)

/-- `getBgpConfig` of routingConfig.js: run the body; its `catch` converts
any error whose message contains `"not enabled"` into the disabled
zero-value object and rethrows everything else. -/
def getBgpConfig (t : BgpTransport) : Except String BgpConfig × Nat :=
  match getBgpConfigBody t with
  | (.error e, n) =>
    if strContains e "not enabled" then (.ok zeroBgpConfig, n) else (.error e, n)
  | r => r

/-! ## Switch info parser (`processSwitchData`, aristaAPI.js) -/

/-- One `show system environment temperature` sensor. -/
structure TempSensor where
  temperature : Option ℚ := none
deriving DecidableEq, Repr

/-- One `show processes top once` process entry. -/
structure ProcEntry where
  cpuPct : Option ℚ := none
deriving DecidableEq, Repr

/-- One `interfaceStatuses` entry, as read by `processSwitchData`. -/
structure IfStatusLite where
  linkStatus : Option String := none
deriving DecidableEq, Repr

/-- `interfaceAddress.ipAddr` of an `ip interface brief` entry. -/
structure IpAddrEntry where
  address : Option String := none
  maskLen : Option Nat := none
deriving DecidableEq, Repr

/-- `interfaceAddress` of an `ip interface brief` entry. -/
structure IfAddrEntry where
  ipAddr : Option IpAddrEntry := none
deriving DecidableEq, Repr

/-- One `ip interface brief` entry. -/
structure IpIfEntry where
  interfaceAddress : Option IfAddrEntry := none
deriving DecidableEq, Repr

/-- One element of the `getSwitchInfo` result array, with every field
`processSwitchData` may read.  JS names the fourth result's map
`interfaces`; it is called `ipInterfaces` here because its value shape
differs from the `show interfaces` map of interfaceConfig.js. -/
structure EosInfoResult where
  uptime : Option ℚ := none
  serialNumber : Option String := none
  modelName : Option String := none
  version : Option String := none
  systemMacAddress : Option String := none
  hostname : Option String := none
  interfaceStatuses : Option (List (String × IfStatusLite)) := none
  ipInterfaces : Option (List (String × IpIfEntry)) := none
  sensors : Option (List TempSensor) := none
  processes : Option (List ProcEntry) := none
  memTotal : Option ℚ := none
  memFree : Option ℚ := none
deriving DecidableEq, Repr

/-- JS object property lookup in a key-ordered object/map. -/
def assocGet {α : Type} (m : List (String × α)) (k : String) : Option α :=
  (m.find? (fun p => p.1 == k)).map (·.2)

/-- `formatUptime` of aristaAPI.js (`none` models `undefined`/`NaN`, which
the `!uptimeSeconds && uptimeSeconds !== 0` guard maps to `"Unknown"`). -/
def formatUptime (uptimeSeconds : Option ℚ) : String :=
  match uptimeSeconds with
  | none => "Unknown"
  | some q =>
    let days := jsFloor (q / 86400)
    let hours := jsFloor (jsMod q 86400 / 3600)
    let minutes := jsFloor (jsMod q 3600 / 60)
    toString days ++ "d " ++ toString hours ++ "h " ++ toString minutes ++ "m"

/-- The `processes.reduce((total, p) => total + (p.cpuPct || 0), 0)` sum. -/
def cpuReduce (ps : List ProcEntry) : ℚ :=
  ps.foldl (fun total p => total + jsOrQ p.cpuPct 0) 0

/-- The standardized switch record built by `processSwitchData`. -/
structure SwitchSummary where
  id : String := ""
  hostname : String := "Unknown"
  model : String := "Unknown"
  ipAddress : String := ""
  status : String := "online"
  uptime : String := "Unknown"
  cpuUsage : ℤ := 0
  memoryUsage : ℤ := 0
  temperature : ℤ := 0
  activeInterfaces : Nat := 0
  totalInterfaces : Nat := 0
  version : String := "Unknown"
  serialNumber : String := "Unknown"
  systemMacAddress : String := "Unknown"
  interfaces : List (String × IfStatusLite) := []
deriving DecidableEq, Repr

/-- `processSwitchData` of aristaAPI.js.  `randomId` stands for the
`Math.random().toString(36).substring(7)` fallback id.  The guard accepts
any array of length ≥ 4, but `rawData[4].sensors` and
`rawData[3].interfaces.Management1` are then read without optional
chaining, so a missing fifth result or a missing `interfaces` map throws a
TypeError (modelled as the corresponding `Except.error`).  The seventh
result (`show processes top once`) is read entirely through `?.`, so its
absence degrades instead. -/
def processSwitchData (randomId : String) (rawData : List EosInfoResult) :
    Except String SwitchSummary :=
  if rawData.length < 4 then .error "Incomplete data received from switch"
  else
    let versionData := (rawData[0]?).getD {}
    let hostnameData := (rawData[1]?).getD {}
    let interfacesData := (rawData[2]?).getD {}
    let ipInterfaceData := (rawData[3]?).getD {}
    match rawData[4]? with
    | none => .error "TypeError: cannot read sensors of undefined"
    | some temperatureData =>
      match ipInterfaceData.ipInterfaces with
      | none => .error "TypeError: cannot read Management1 of undefined"
      | some ipIfs =>
        let processesData := rawData[6]?
        let statuses := interfacesData.interfaceStatuses.getD []
        let activeInterfaces :=
          (statuses.filter (fun p => p.2.linkStatus == some "connected")).length
        let totalInterfaces := statuses.length
        let cpuUsage := jsOrQ ((processesData.bind (·.processes)).map cpuReduce) 0
        let memoryTotal := jsOrQ (processesData.bind (·.memTotal)) 1
        let memoryFree := jsOrQ (processesData.bind (·.memFree)) 0
        let memoryUsage := jsRound ((memoryTotal - memoryFree) / memoryTotal * 100)
        let validTemps : List ℚ :=
          match temperatureData.sensors with
          | none => []
          | some sensors => sensors.filterMap (fun s =>
              match s.temperature with
              | some t => if t = 0 then none else some t
              | none => none)
        let temperature :=
          if validTemps.length > 0 then
            jsRound (validTemps.foldl (· + ·) 0 / (validTemps.length : ℚ))
          else 0
        let managementIp := jsStrOr
          ((((assocGet ipIfs "Management1").bind (·.interfaceAddress)).bind
            (·.ipAddr)).bind (·.address)) ""
        .ok {
          id := jsStrOr versionData.serialNumber randomId
          hostname := jsStrOr hostnameData.hostname "Unknown"
          model := jsStrOr versionData.modelName "Unknown"
          ipAddress := managementIp
          status := "online"
          uptime := formatUptime versionData.uptime
          cpuUsage := min (jsRound cpuUsage) 100
          memoryUsage := memoryUsage
          temperature := temperature
          activeInterfaces := activeInterfaces
          totalInterfaces := totalInterfaces
          version := jsStrOr versionData.version "Unknown"
          serialNumber := jsStrOr versionData.serialNumber "Unknown"
          systemMacAddress := jsStrOr versionData.systemMacAddress "Unknown"
          interfaces := statuses }

/-! ## Session registry (connectionManager.js)

The module-level `connections` map is modelled as an insertion-ordered
association list; the transport handle and credentials stored alongside
`switchData` are carried unchanged by every refresh and are omitted.  The
per-session `getSwitchInfo().then(processSwitchData)` pipeline is the
`fetch` oracle. -/

/-- The `connections` map: switch id to its stored `switchData`. -/
abbrev Registry := List (String × SwitchSummary)

/-- `connections.get(id)` (first, and in a real `Map` only, match). -/
def lookupConn (reg : Registry) (id : String) : Option SwitchSummary :=
  (reg.find? (fun p => p.1 == id)).map (·.2)

/-- `connections.set(id, v)`: replace in place, or append a new key. -/
def setConn (reg : Registry) (id : String) (s : SwitchSummary) : Registry :=
  if (reg.find? (fun p => p.1 == id)).isSome then
    reg.map (fun p => if p.1 == id then (id, s) else p)
  else
    reg ++ [(id, s)]

/-- `getAllSwitchData` of connectionManager.js. -/
def getAllSwitchData (reg : Registry) : List SwitchSummary :=
  reg.map (·.2)

/-- `refreshSwitchData` of connectionManager.js: `NotFoundError` for an
unknown id; otherwise fetch, and only on success atomically replace the
stored summary.  Returns the new summary and the updated registry. -/
def refreshSwitchData (fetch : String → Except String SwitchSummary)
    (reg : Registry) (id : String) : Except String (SwitchSummary × Registry) :=
  match lookupConn reg id with
  | none => .error ("No connection found for switch ID: " ++ id)
  | some _ =>
    match fetch id with
    | .error e => .error e
    | .ok s => .ok (s, setConn reg id s)

/-- The effect of one fanned-out `refreshSwitchData(id)` promise on the
shared map: a successful refresh commits its `connections.set`; a rejected
one leaves the map untouched. -/
def refreshStep (fetch : String → Except String SwitchSummary)
    (reg : Registry) (id : String) : Registry :=
  match refreshSwitchData fetch reg id with
  | .ok (_, reg2) => reg2
  | .error _ => reg

/-- All fanned-out refreshes applied to the shared map.  Under `Promise.all`
every promise runs to completion even after the first rejection, so every
successful refresh commits regardless of failures elsewhere; since each
promise touches only its own key, the settle order does not matter and the
key order is used. -/
def processIds (fetch : String → Except String SwitchSummary) :
    List String → Registry → Registry
  | [], reg => reg
  | id :: ids, reg => processIds fetch ids (refreshStep fetch reg id)

/-- The rejection `Promise.all` surfaces, if any; `Promise.all` rejects
with the first-settled rejection, determinized here to key order. -/
def firstRefreshError (fetch : String → Except String SwitchSummary)
    (reg : Registry) (ids : List String) : Option String :=
  ids.findSome? (fun id =>
    match refreshSwitchData fetch reg id with
    | .error e => some e
    | .ok _ => none)

/-- `refreshAllConnections` of connectionManager.js: fan out one
`refreshSwitchData` per stored key, then `Promise.all`-join: reject if any
refresh rejected, else return `getAllSwitchData()`.  The first component
is the registry after all promises settled. -/
def refreshAllConnections (fetch : String → Except String SwitchSummary)
    (reg : Registry) : Registry × Except String (List SwitchSummary) :=
  let ids := reg.map (·.1)
  let finalReg := processIds fetch ids reg
  match firstRefreshError fetch reg ids with
  | some e => (finalReg, .error e)
  | none => (finalReg, .ok (getAllSwitchData finalReg))

/-- `Except.isOk` as a plain Bool projection. -/
def exIsOk {ε α : Type} : Except ε α → Bool
  | .ok _ => true
  | .error _ => false

/-! ## Interface detail parser (`processInterfaceData`, interfaceConfig.js) -/

/-- `vlanInformation` of an interface-status entry. -/
structure VlanInfo where
  vlanId : Option Nat := none
  interfaceMode : Option String := none
deriving DecidableEq, Repr

/-- One `show interfaces status` entry, as read by `processInterfaceData`. -/
structure IfStatusEntry where
  linkStatus : Option String := none
  interfaceStatus : Option String := none
  bandwidth : Option Nat := none
  vlanInformation : Option VlanInfo := none
deriving DecidableEq, Repr

/-- The counters sub-object of a `show interfaces` entry. -/
structure IfCountersRaw where
  inputErrors : Option Nat := none
  outputErrors : Option Nat := none
  inOctets : Option Nat := none
  outOctets : Option Nat := none
  inUcastPkts : Option Nat := none
  outUcastPkts : Option Nat := none
deriving DecidableEq, Repr

/-- One `show interfaces` entry, as read by `processInterfaceData`. -/
structure IfBaseEntry where
  bandwidth : Option Nat := none
  physicalAddress : Option String := none
  mtu : Option Nat := none
  counters : Option IfCountersRaw := none
deriving DecidableEq, Repr

/-- One `show interfaces description` entry. -/
structure IfDescEntry where
  description : Option String := none
deriving DecidableEq, Repr

/-- One element of the four-command result array consumed by
`processInterfaceData`.  In JS both the first and the fourth result store
their map under the key `interfaces`; the two maps have different value
shapes, so the fourth is named `ipInterfaces` here. -/
structure EosIfResult where
  interfaces : Option (List (String × IfBaseEntry)) := none
  interfaceStatuses : Option (List (String × IfStatusEntry)) := none
  interfaceDescriptions : Option (List (String × IfDescEntry)) := none
  ipInterfaces : Option (List (String × IpIfEntry)) := none
deriving DecidableEq, Repr

/-- The standardized interface object built per name. -/
structure IfCounters where
  inputErrors : Nat := 0
  outputErrors : Nat := 0
  inputBytes : Nat := 0
  outputBytes : Nat := 0
  inputPackets : Nat := 0
  outputPackets : Nat := 0
deriving DecidableEq, Repr

/-- The standardized interface record built by `processInterfaceData`.
`ipPrefixLength` models the field named `ipPrefixLength` in the source. -/
structure InterfaceRecord where
  name : String := ""
  type : String := "other"
  description : String := ""
  status : String := "down"
  enabled : Bool := true
  speed : Nat := 0
  vlan : Option Nat := none
  mode : String := "routed"
  macAddress : String := ""
  ipAddress : String := ""
  ipPrefixLength : Nat := 0
  mtu : Nat := 0
  counters : IfCounters := {}
deriving DecidableEq, Repr

/-- `determineInterfaceType` of interfaceConfig.js. -/
def determineInterfaceType (name : String) : String :=
  if strStarts name "Ethernet" then "ethernet"
  else if strStarts name "Management" then "management"
  else if strStarts name "Port-Channel" then "port-channel"
  else if strStarts name "Vlan" then "vlan"
  else if strStarts name "Loopback" then "loopback"
  else "other"

/-- `determineInterfaceMode` of interfaceConfig.js. -/
def determineInterfaceMode (st : IfStatusEntry) : String :=
  match st.vlanInformation with
  | none => "routed"
  | some vi =>
    if vi.interfaceMode = some "access" then "access"
    else if vi.interfaceMode = some "trunk" then "trunk"
    else "unknown"

/-- Keep the first occurrence of every name (JS `Set` insertion order). -/
def dedupAux (seen : List String) : List String → List String
  | [] => []
  | x :: xs => if x ∈ seen then dedupAux seen xs else x :: dedupAux (x :: seen) xs

/-- JS `new Set([...])` spread back to an insertion-ordered list. -/
def dedupKeepFirst (l : List String) : List String := dedupAux [] l

/-- The `show interfaces` map of the first result (`|| {}`). -/
def ifBaseOf (rawData : List EosIfResult) : List (String × IfBaseEntry) :=
  ((rawData[0]?).bind (·.interfaces)).getD []

/-- The `show interfaces status` map of the second result (`|| {}`). -/
def ifStatusOf (rawData : List EosIfResult) : List (String × IfStatusEntry) :=
  ((rawData[1]?).bind (·.interfaceStatuses)).getD []

/-- The `show interfaces description` map of the third result (`|| {}`). -/
def ifDescOf (rawData : List EosIfResult) : List (String × IfDescEntry) :=
  ((rawData[2]?).bind (·.interfaceDescriptions)).getD []

/-- The `ip interface brief` map of the fourth result (`|| {}`). -/
def ipDataOf (rawData : List EosIfResult) : List (String × IpIfEntry) :=
  ((rawData[3]?).bind (·.ipInterfaces)).getD []

/-- The `new Set([...Object.keys(...)])` union of the four keyspaces. -/
def interfaceNameUnion (rawData : List EosIfResult) : List String :=
  dedupKeepFirst ((ifBaseOf rawData).map (·.1) ++ (ifStatusOf rawData).map (·.1) ++
    (ifDescOf rawData).map (·.1) ++ (ipDataOf rawData).map (·.1))

/-- The standardized interface object pushed for one name. -/
def buildIfRecord (rawData : List EosIfResult) (name : String) : InterfaceRecord :=
  let baseData := (assocGet (ifBaseOf rawData) name).getD {}
  let status := (assocGet (ifStatusOf rawData) name).getD {}
  let descEntry := (assocGet (ifDescOf rawData) name).getD {}
  let ipInfo := (assocGet (ipDataOf rawData) name).getD {}
  let counters := baseData.counters.getD {}
  { name := name
    type := determineInterfaceType name
    description := jsStrOr descEntry.description ""
    status := if status.linkStatus == some "connected" then "up" else "down"
    enabled := status.interfaceStatus ≠ some "disabled" ∧
      status.interfaceStatus ≠ some "notconnect"
    speed := jsNumOr status.bandwidth (jsNumOr baseData.bandwidth 0)
    vlan := jsNumOrNull (status.vlanInformation.bind (·.vlanId))
    mode := determineInterfaceMode status
    macAddress := jsStrOr baseData.physicalAddress ""
    ipAddress := jsStrOr
      (((ipInfo.interfaceAddress.bind (·.ipAddr)).bind (·.address))) ""
    ipPrefixLength := jsNumOr ((ipInfo.interfaceAddress.bind (·.ipAddr)).bind (·.maskLen)) 0
    mtu := jsNumOr baseData.mtu 0
    counters := {
      inputErrors := jsNumOr counters.inputErrors 0
      outputErrors := jsNumOr counters.outputErrors 0
      inputBytes := jsNumOr counters.inOctets 0
      outputBytes := jsNumOr counters.outOctets 0
      inputPackets := jsNumOr counters.inUcastPkts 0
      outputPackets := jsNumOr counters.outUcastPkts 0 } }

/-- `parseInt(name.replace('Ethernet', ''))` of the sort comparator. -/
def ethNum (name : String) : Option Int :=
  jsParseInt (String.mk (name.toList.drop 8))

/-- Code-point lexicographic three-way comparison. -/
def listCmp : List Char → List Char → Int
  | [], [] => 0
  | [], _ :: _ => -1
  | _ :: _, [] => 1
  | a :: as, b :: bs =>
    if a.toNat < b.toNat then -1
    else if b.toNat < a.toNat then 1
    else listCmp as bs

/-- `localeCompare`, modelled as code-point lexicographic comparison. -/
def strCmp (a b : String) : Int := listCmp a.toList b.toList

/-- The sort comparator of `processInterfaceData`: Ethernet-vs-Ethernet
compares the trailing numbers (a `NaN` difference is treated as 0, as
`Array.prototype.sort` does); every other pair falls back to
`localeCompare`. -/
def ifCmp (a b : InterfaceRecord) : Int :=
  if strStarts a.name "Ethernet" && strStarts b.name "Ethernet" then
    match ethNum a.name, ethNum b.name with
    | some x, some y => x - y
    | _, _ => 0
  else strCmp a.name b.name

/-- Stable insertion of one element by comparator. -/
def insertSorted {α : Type} (cmp : α → α → Int) (a : α) : List α → List α
  | [] => [a]
  | b :: bs => if cmp a b ≤ 0 then a :: b :: bs else b :: insertSorted cmp a bs

/-- Stable comparator sort (`Array.prototype.sort` is stable since ES2019;
any stable sort produces the same permutation class). -/
def sortByCmp {α : Type} (cmp : α → α → Int) (l : List α) : List α :=
  l.foldr (insertSorted cmp) []

/-- `processInterfaceData` of interfaceConfig.js: guard the array length,
read the four maps (the fourth unconditionally, so a 3-element array
throws a TypeError), build one record per unioned name while dropping
`CPU*`/`Loop*` names, and sort. -/
def processInterfaceData (rawData : List EosIfResult) :
    Except String (List InterfaceRecord) :=
  if rawData.length < 3 then .error "Incomplete interface data received"
  else
    match rawData[3]? with
    | none => .error "TypeError: cannot read interfaces of undefined"
    | some _ =>
      .ok (sortByCmp ifCmp ((interfaceNameUnion rawData).filterMap (fun name =>
        if strStarts name "CPU" || strStarts name "Loop" then none
        else some (buildIfRecord rawData name))))

/-! ## Topology builder (topologyService.js) -/

/-- The slice of a stored switch object read by `buildNetworkTopology`
(an empty id models a falsy `switchData.id`). -/
structure TopoSwitchIn where
  id : String := ""
  hostname : Option String := none
  model : Option String := none
  ipAddress : Option String := none
deriving DecidableEq, Repr

/-- One LLDP neighbor as produced by `parseLldpNeighbors` (all fields are
strings there, with `"Unknown"`/`""` defaults already applied). -/
structure LldpNb where
  localPort : String := ""
  remoteChassisId : String := ""
  remotePort : String := ""
  remoteDeviceName : String := ""
  remoteDescription : String := ""
deriving DecidableEq, Repr

/-- One topology node.  Switch nodes carry `model`/`ipAddress`; discovered
neighbor nodes do not have those properties at all, hence `Option`. -/
structure TopoNode where
  id : String
  name : String
  type : String
  status : String
  model : Option String := none
  ipAddress : Option String := none
  x : ℚ := 0
  y : ℚ := 0
deriving DecidableEq, Repr

/-- One topology link. -/
structure TopoLink where
  id : String
  source : String
  target : String
  sourcePort : String
  targetPort : String
  status : String
deriving DecidableEq, Repr

/-- The node/link graph returned by `buildNetworkTopology`. -/
structure TopoGraph where
  nodes : List TopoNode
  links : List TopoLink
deriving DecidableEq, Repr

/-- The mutable state of the discovery loop: the graph so far plus the
`processedNodeIds` dedup set (kept in insertion order). -/
structure TopoState where
  nodes : List TopoNode
  links : List TopoLink
  processed : List String
deriving DecidableEq, Repr

/-- `neighbor.remoteChassisId.replace(/:/g, '')`. -/
def stripColons (s : String) : String :=
  String.mk (s.toList.filter (fun c => c != ':'))

/-- JS `s.substring(a, b)` for `a ≤ b` (indices clamped to the length). -/
def jsSubstring (s : String) (a b : Nat) : String :=
  String.mk ((s.toList.drop a).take (b - a))

/-- The keyword classification of a neighbor's device type from its
(lowercased) system description. -/
def nodeTypeOf (remoteDescription : String) : String :=
  let d := asciiLower remoteDescription
  if strContains d "switch" || strContains d "arista" then "switch"
  else if strContains d "router" || strContains d "gateway" then "router"
  else if strContains d "server" || strContains d "host" then "server"
  else if strContains d "ap" || strContains d "access point" then "wireless"
  else "unknown"

/-- The chassis-derived neighbor node id. -/
def nbIdOf (nb : LldpNb) : String := "device-" ++ stripColons nb.remoteChassisId

/-- The node emitted for a newly discovered neighbor. -/
def nbNodeOf (nb : LldpNb) : TopoNode :=
  { id := nbIdOf nb
    name := jsStrOr (some nb.remoteDeviceName) ("Device-" ++ jsSubstring (nbIdOf nb) 7 13)
    type := nodeTypeOf nb.remoteDescription
    status := "discovered" }

/-- The link emitted for one (switch, neighbor) pair; its status reflects
whether the local port's interface status is `connected`. -/
def nbLinkOf (swId : String) (ifStatuses : List (String × String)) (nb : LldpNb) : TopoLink :=
  { id := "link-" ++ swId ++ "-" ++ nbIdOf nb ++ "-" ++ nb.localPort
    source := swId
    target := nbIdOf nb
    sourcePort := nb.localPort
    targetPort := nb.remotePort
    status := if assocGet ifStatuses nb.localPort == some "connected" then "up" else "down" }

/-- The inner loop over one switch's LLDP neighbors: add the neighbor node
unless its chassis-derived id was already processed, and always add the
link. -/
def processNeighbors (swId : String) (ifStatuses : List (String × String)) :
    List LldpNb → TopoState → TopoState
  | [], st => st
  | nb :: rest, st =>
    if nbIdOf nb ∈ st.processed then
      processNeighbors swId ifStatuses rest
        { st with links := st.links ++ [nbLinkOf swId ifStatuses nb] }
    else
      processNeighbors swId ifStatuses rest
        { nodes := st.nodes ++ [nbNodeOf nb]
          links := st.links ++ [nbLinkOf swId ifStatuses nb]
          processed := st.processed ++ [nbIdOf nb] }

/-- The node emitted for a stored switch. -/
def switchNodeOf (sw : TopoSwitchIn) : TopoNode :=
  { id := sw.id
    name := jsStrOr sw.hostname ("Switch-" ++ sw.id)
    type := "switch"
    status := "online"
    model := some (jsStrOr sw.model "")
    ipAddress := some (jsStrOr sw.ipAddress "") }

/-- The outer loop over the input switches.  `discover` is the remote
oracle combining `getLldpNeighbors` and `getInterfaceStatus` for one
switch id; `none` models a rejection of either call, which the source
catches and skips (the switch node itself is added before the `try`). -/
def buildTopoAux (discover : String → Option (List LldpNb × List (String × String))) :
    List TopoSwitchIn → TopoState → TopoState
  | [], st => st
  | sw :: rest, st =>
    if sw.id = "" ∨ sw.id ∈ st.processed then buildTopoAux discover rest st
    else
      match discover sw.id with
      | none =>
        buildTopoAux discover rest
          { st with nodes := st.nodes ++ [switchNodeOf sw]
                    processed := st.processed ++ [sw.id] }
      | some (nbs, ifStatuses) =>
        buildTopoAux discover rest (processNeighbors sw.id ifStatuses nbs
          { st with nodes := st.nodes ++ [switchNodeOf sw]
                    processed := st.processed ++ [sw.id] })

/-- The positional pass of `positionNodes` below one spacing pair: the
k-th switch-typed node gets `x = switchSpacing * (k+1), y = 25`, the k-th
other node `x = deviceSpacing * (k+1), y = 75`, in list order. -/
def assignPositions (switchSpacing deviceSpacing : ℚ) :
    List TopoNode → Nat → Nat → List TopoNode
  | [], _, _ => []
  | n :: rest, si, oi =>
    if n.type = "switch" then
      { n with x := switchSpacing * (si + 1 : ℚ), y := 25 } ::
        assignPositions switchSpacing deviceSpacing rest (si + 1) oi
    else
      { n with x := deviceSpacing * (oi + 1 : ℚ), y := 75 } ::
        assignPositions switchSpacing deviceSpacing rest si (oi + 1)

/-- `positionNodes` of topologyService.js: a single node is centered;
otherwise switches are spread along `y = 25` and all other devices along
`y = 75`. -/
def positionNodes (nodes : List TopoNode) : List TopoNode :=
  match nodes with
  | [] => []
  | [n] => [{ n with x := 50, y := 50 }]
  | _ =>
    let switchCount := (nodes.filter (fun n => n.type = "switch")).length
    let otherCount := (nodes.filter (fun n => n.type ≠ "switch")).length
    assignPositions (100 / (switchCount + 1 : ℚ)) (100 / (otherCount + 1 : ℚ)) nodes 0 0

/-- `buildNetworkTopology` of topologyService.js. -/
def buildNetworkTopology
    (discover : String → Option (List LldpNb × List (String × String)))
    (switches : List TopoSwitchIn) : TopoGraph :=
  if switches.isEmpty then { nodes := [], links := [] }
  else
    let st := buildTopoAux discover switches { nodes := [], links := [], processed := [] }
    { nodes := positionNodes st.nodes, links := st.links }

/-! ## Concrete fixtures used by the witness and counterexample theorems -/

/-- Pre-refresh summary of session `a`. -/
def c1sA : SwitchSummary := { id := "a", hostname := "alpha" }

/-- The summary the stub fetch returns for session `a`. -/
def c1sA2 : SwitchSummary := { id := "a", hostname := "alpha-refreshed" }

/-- Pre-refresh summary of session `b`. -/
def c1sB : SwitchSummary := { id := "b", hostname := "beta" }

/-- A two-session registry. -/
def c1reg : Registry := [("a", c1sA), ("b", c1sB)]

/-- A stub fetch whose session `a` succeeds and whose session `b` rejects. -/
def c1fetch : String → Except String SwitchSummary := fun id =>
  if id = "a" then .ok c1sA2 else .error "Error: fetch failed"

/-- A 4-element info result array (temperature result absent). -/
def c2raw4 : List EosInfoResult := [{}, {}, {}, { ipInterfaces := some [] }]

/-- A 5-element info result array with cooling and top-processes absent. -/
def c2raw5 : List EosInfoResult := [{}, {}, {}, { ipInterfaces := some [] }, {}]

/-- A transport whose BGP summary output has a neighbor row but no
router-identifier line and no `"BGP not active"` marker. -/
def c5t : BgpTransport :=
  { summary := .ok (some "10.0.0.1 4 65001 x"), neighborsOut := .ok none }

/-- A transport whose summary output contains `"BGP not active"`. -/
def c5tNotActive : BgpTransport :=
  { summary := .ok (some "BGP not active"), neighborsOut := .ok none }

/-- First reporting switch of the topology dedup scenario. -/
def c6sw1 : TopoSwitchIn :=
  { id := "sw1", hostname := some "SW1", model := some "DCS-7050",
    ipAddress := some "10.0.0.1" }

/-- Second reporting switch of the topology dedup scenario. -/
def c6sw2 : TopoSwitchIn := { id := "sw2", hostname := some "SW2" }

/-- The neighbor as reported by `sw1`. -/
def c6nb1 : LldpNb :=
  { localPort := "Ethernet1", remoteChassisId := "aa:bb", remotePort := "e1",
    remoteDeviceName := "peer", remoteDescription := "Arista switch EOS" }

/-- The same chassis as reported by `sw2`. -/
def c6nb2 : LldpNb :=
  { localPort := "Ethernet2", remoteChassisId := "aa:bb", remotePort := "e2",
    remoteDeviceName := "peer", remoteDescription := "Arista switch EOS" }

/-- The discovery oracle of the dedup scenario. -/
def c6disc : String → Option (List LldpNb × List (String × String)) := fun id =>
  if id = "sw1" then some ([c6nb1], [("Ethernet1", "connected")])
  else if id = "sw2" then some ([c6nb2], []) else none

/-- The graph built in the dedup scenario. -/
def c6graph : TopoGraph := buildNetworkTopology c6disc [c6sw1, c6sw2]

/-- A 7-element info result array whose only process reports a negative
CPU percentage. -/
def c7raw : List EosInfoResult :=
  [{}, {}, {}, { ipInterfaces := some [] }, {}, {},
   { processes := some [{ cpuPct := some (-5) }] }]

/-- A 4-command interface result array containing `CPU`, `Loopback0`,
`Ethernet1` and `Management1` names. -/
def c8raw : List EosIfResult :=
  [ { interfaces := some [("Ethernet1", {})] },
    { interfaceStatuses :=
        some [("CPU", {}), ("Ethernet1", { linkStatus := some "connected" })] },
    { interfaceDescriptions := some [("Loopback0", {})] },
    { ipInterfaces := some [("Management1", {})] } ]

/-- The records `processInterfaceData` builds from `c8raw`. -/
def c8out : List InterfaceRecord :=
  [ { name := "Ethernet1", type := "ethernet", status := "up" },
    { name := "Management1", type := "management" } ]

/-- A 3-element interface result array. -/
def c9raw : List EosIfResult := [{}, {}, {}]

/-- A transport whose summary call rejects with a BGP-disabled message. -/
def c10t : BgpTransport :=
  { summary := .error "Error: BGP is not enabled on this router",
    neighborsOut := .ok none }

/-- A transport whose summary succeeds (BGP active) and whose
neighbor-detail call rejects with a BGP-disabled message. -/
def c10t2 : BgpTransport :=
  { summary := .ok (some "BGP router identifier 1.2.3.4, local AS number 65000\n"),
    neighborsOut := .error "Error: BGP is not enabled on this router" }

/-! ## C4: the two-route parsing example -/

/-- C4: on the routing-table text
`"S 10.0.0.0/24 [1/0] via 192.168.1.1\nS 10.0.1.0/24 via 192.168.1.1"`,
`parseStaticRoutes` yields exactly the two records
`{prefix := "10.0.0.0/24", nextHop := "192.168.1.1", adminDistance := 1,
metric := 0}` and `{prefix := "10.0.1.0/24", nextHop := "192.168.1.1",
adminDistance := 1, metric := 0}`: the missing `[distance/metric]` group
defaults to distance 1 and metric 0, and the word `via` is optional. -/
theorem parseStaticRoutes_two_route_example :
    parseStaticRoutes "S 10.0.0.0/24 [1/0] via 192.168.1.1\nS 10.0.1.0/24 via 192.168.1.1" =
      [ { id := "static-1", prefixCidr := "10.0.0.0/24", nextHop := "192.168.1.1",
          adminDistance := 1, metric := 0, type := "static" },
        { id := "static-2", prefixCidr := "10.0.1.0/24", nextHop := "192.168.1.1",
          adminDistance := 1, metric := 0, type := "static" } ] := by
  rfl

/-! ## Counterexample theorems for the corrected claims -/

/-- C1 counterexample: with session `a` refreshing successfully and
session `b` rejecting, `refreshAllConnections` rejects as claimed, but
`getAllSwitchData()` afterwards shows session `a`'s new summary — the
pre-refresh summaries are not all preserved, so a partial overwrite
occurs. -/
theorem refreshAllConnections_partial_overwrite_cex :
    (refreshAllConnections c1fetch c1reg).2 = .error "Error: fetch failed" ∧
    getAllSwitchData (refreshAllConnections c1fetch c1reg).1 = [c1sA2, c1sB] ∧
    getAllSwitchData (refreshAllConnections c1fetch c1reg).1 ≠ getAllSwitchData c1reg := by
  refine ⟨rfl, rfl, ?_⟩
  decide

/-- C2 counterexample: a 4-element result array passes the length guard
but throws a TypeError when `rawData[4].sensors` is read, instead of
degrading temperature to 0; and on a 5-element array with top-processes
absent the parse succeeds but degrades `memoryUsage` to 100, not 0
(`memTotal || 1` and `memFree || 0` give `round(((1-0)/1)*100)`). -/
theorem processSwitchData_degradation_cex :
    processSwitchData "r" c2raw4 = .error "TypeError: cannot read sensors of undefined" ∧
    (processSwitchData "r" c2raw5).toOption.map SwitchSummary.memoryUsage = some 100 := by
  refine ⟨rfl, ?_⟩
  simp only [processSwitchData, c2raw5]
  norm_num [jsOrQ, jsRound, Except.toOption]

/-- C3 counterexample: `addStaticRoute` performs no range check on the
administrative distance — the out-of-range distance 300 is interpolated
into the command string and `executeCommands` is reached. -/
theorem addStaticRoute_no_distance_check_cex :
    addStaticRouteCmds "sw1" "10.0.0.0/24" "192.168.1.1" 300 =
      .ok ["configure", "ip route 10.0.0.0/24 192.168.1.1 300", "end"] := by
  decide

/-- C5 counterexample: a summary output with a neighbor-style row but no
router-identifier line (and no `"BGP not active"` marker) makes
`getBgpConfig` return `enabled := false, asn := none, routerId := none`
with a *nonempty* neighbor list — not the zero-value object (though no
second remote call is made). -/
theorem getBgpConfig_not_zero_object_cex :
    getBgpConfig c5t =
      (.ok { enabled := false, asn := none, routerId := none,
             neighbors := [BgpNeighborObj.summary "10.0.0.1" 65001] }, 1) ∧
    ({ enabled := false, asn := none, routerId := none,
       neighbors := [BgpNeighborObj.summary "10.0.0.1" 65001] } : BgpConfig) ≠ zeroBgpConfig := by
  refine ⟨rfl, ?_⟩
  decide

/-- C7 counterexample: a process entry with a negative CPU percentage
passes through `Math.min(Math.round(sum), 100)` unclamped below, yielding
`cpuUsage = -5` — the claimed lower bound 0 does not hold for every
output. -/
theorem processSwitchData_negative_cpu_cex :
    (processSwitchData "r" c7raw).toOption.map SwitchSummary.cpuUsage = some (-5) := by
  simp only [processSwitchData, c7raw]
  norm_num [jsOrQ, jsRound, cpuReduce, Except.toOption]

/-! ## C9: processInterfaceData rejects every short input -/

/-- Auxiliary: a list shorter than 4 has no element at index 3. -/
theorem getElem3_eq_none_of_len_lt {α : Type} (l : List α) (h : l.length < 4) :
    l[3]? = none := by
  apply List.getElem?_eq_none
  omega

/-- C9: `processInterfaceData` throws on every input array with fewer than
4 command results — lengths 0–2 are rejected by the explicit `length < 3`
guard, and a 3-element array also throws because `rawData[3]` is read
unconditionally; callers never receive records built from fewer than four
command outputs. -/
theorem processInterfaceData_short_input_throws (rawData : List EosIfResult)
    (h : rawData.length < 4) : exIsOk (processInterfaceData rawData) = false := by
  unfold processInterfaceData
  by_cases h3 : rawData.length < 3
  · simp [h3, exIsOk]
  · simp [h3, getElem3_eq_none_of_len_lt rawData h, exIsOk]

/-- C9 witness: the 3-element array `c9raw` is rejected. -/
theorem processInterfaceData_short_input_throws_witness :
    exIsOk (processInterfaceData c9raw) = false :=
  processInterfaceData_short_input_throws c9raw (by decide)

/-! ## C3 (amended): which numeric fields are actually range-checked -/

/-- C3 amended: the VLAN id (1–4094, `createVlan`) and the ASN
(1–4294967295, `configureBgp`) are range-checked before being interpolated
into command strings, and a failed check raises the validation error
without reaching `executeCommands`; the administrative distance of
`addStaticRoute`, however, is **not** range-checked — for every integer
distance the command sequence is built and `executeCommands` is called
(given a valid prefix and next hop). -/
theorem write_op_range_checks :
    (∀ (vid : Int) (name : String), vid < 1 ∨ vid > 4094 →
      createVlanCmds vid name = .error "Invalid VLAN ID. Must be between 1-4094.") ∧
    (∀ (vid : Int) (name : String), 1 ≤ vid → vid ≤ 4094 →
      exIsOk (createVlanCmds vid name) = true) ∧
    (∀ (asn : Int) (routerId : Option String), asn < 1 ∨ asn > 4294967295 →
      configureBgpCmds asn routerId = .error "Invalid ASN. Must be between 1 and 4294967295") ∧
    (∀ d : Int, exIsOk (addStaticRouteCmds "sw1" "10.0.0.0/24" "192.168.1.1" d) = true) := by
  refine ⟨?_, ?_, ?_, ?_⟩
  · intro vid name h
    unfold createVlanCmds
    simp [h]
  · intro vid name h1 h2
    unfold createVlanCmds
    have h : ¬(vid < 1 ∨ vid > 4094) := by omega
    simp only [h, if_false, exIsOk]
  · intro asn routerId h
    unfold configureBgpCmds
    simp [h]
  · intro d
    unfold addStaticRouteCmds
    rw [if_neg (by decide), if_neg (by decide), if_neg (by decide), if_neg (by decide)]
    rfl

/-- C3 witness: VLAN id 5000 and ASN 0 are rejected before any command is
issued; VLAN id 10 passes; admin distance 300 reaches command building. -/
theorem write_op_range_checks_witness :
    createVlanCmds 5000 "x" = .error "Invalid VLAN ID. Must be between 1-4094." ∧
    exIsOk (createVlanCmds 10 "x") = true ∧
    configureBgpCmds 0 none = .error "Invalid ASN. Must be between 1 and 4294967295" ∧
    exIsOk (addStaticRouteCmds "sw1" "10.0.0.0/24" "192.168.1.1" 300) = true :=
  ⟨write_op_range_checks.1 5000 "x" (by decide),
   write_op_range_checks.2.1 10 "x" (by decide) (by decide),
   write_op_range_checks.2.2.1 0 none (by decide),
   write_op_range_checks.2.2.2 300⟩

/-! ## C10: the "not enabled" catch in getBgpConfig -/

/-- C10: when an underlying `executeCommands` call rejects with an error
whose message contains `"not enabled"` — whether the summary fetch or the
neighbor-detail fetch — `getBgpConfig` does not propagate the failure; it
returns the disabled zero-value object
`{enabled := false, asn := none, routerId := none, neighbors := []}`. -/
theorem getBgpConfig_not_enabled_catch (t : BgpTransport) (e : String)
    (he : strContains e "not enabled" = true) :
    (t.summary = .error e → getBgpConfig t = (.ok zeroBgpConfig, 1)) ∧
    (∀ out, t.summary = .ok (some out) →
      jsAsnTruthy (parseBgpSummary out).asn = true →
      t.neighborsOut = .error e → getBgpConfig t = (.ok zeroBgpConfig, 2)) := by
  constructor
  · intro hsum
    unfold getBgpConfig getBgpConfigBody
    rw [hsum]
    simp [he]
  · intro out hsum hasn hnb
    unfold getBgpConfig getBgpConfigBody
    rw [hsum]
    simp [hasn, hnb, he]

/-- C10 witness: a summary rejection and a neighbor-detail rejection
carrying `"not enabled"` both produce the zero-value object. -/
theorem getBgpConfig_not_enabled_catch_witness :
    getBgpConfig c10t = (.ok zeroBgpConfig, 1) ∧
    getBgpConfig c10t2 = (.ok zeroBgpConfig, 2) :=
  ⟨(getBgpConfig_not_enabled_catch c10t "Error: BGP is not enabled on this router"
      (by decide)).1 rfl,
   (getBgpConfig_not_enabled_catch c10t2 "Error: BGP is not enabled on this router"
      (by decide)).2
      "BGP router identifier 1.2.3.4, local AS number 65000\n" rfl (by decide) rfl⟩

/-! ## C5 (amended): disabled summaries in getBgpConfig -/

/-- C5 amended: when the BGP summary output contains `"BGP not active"`,
`getBgpConfig` returns the zero-value object and makes no additional
remote call.  When the output merely lacks a recognizable router-identifier
line, `enabled`, `asn` and `routerId` take their zero values and no
neighbor-detail fetch is triggered, but the returned object is the summary
parse itself, whose `neighbors` list may be nonempty (summary rows are
scanned regardless). -/
theorem getBgpConfig_disabled_summary :
    (∀ (t : BgpTransport) (out : String), t.summary = .ok (some out) →
      strContains out "BGP not active" = true →
      getBgpConfig t = (.ok zeroBgpConfig, 1)) ∧
    (∀ (t : BgpTransport) (out : String), t.summary = .ok (some out) →
      (parseBgpSummary out).asn = none →
      (parseBgpSummary out).enabled = false ∧ (parseBgpSummary out).routerId = none ∧
        getBgpConfig t = (.ok (parseBgpSummary out), 1)) := by
  constructor
  · intro t out hsum hcontains
    have hzero : parseBgpSummary out = zeroBgpConfig := by
      unfold parseBgpSummary
      rw [if_pos hcontains]
    unfold getBgpConfig getBgpConfigBody
    rw [hsum]
    simp [hzero, jsAsnTruthy, zeroBgpConfig]
  · intro t out hsum hasn
    have h1 : (parseBgpSummary out).enabled = false ∧ (parseBgpSummary out).routerId = none := by
      unfold parseBgpSummary at hasn ⊢
      by_cases hna : strContains out "BGP not active" = true
      · simp [hna, zeroBgpConfig]
      · simp only [hna, if_false, Bool.false_eq_true] at hasn ⊢
        cases hfr : firstMatch matchRouterIdAt out.data with
        | none => simp [String.toList, hfr, zeroBgpConfig]
        | some p => simp [String.toList, hfr] at hasn
    refine ⟨h1.1, h1.2, ?_⟩
    unfold getBgpConfig getBgpConfigBody
    rw [hsum]
    simp [hasn, jsAsnTruthy]

/-- C5 witness: on the literal summary `"BGP not active"` the zero object
is returned with exactly one remote call, and on a router-identifier-free
summary the scalar fields are zero with one remote call. -/
theorem getBgpConfig_disabled_summary_witness :
    getBgpConfig c5tNotActive = (.ok zeroBgpConfig, 1) ∧
    ((parseBgpSummary "10.0.0.1 4 65001 x").enabled = false ∧
     (parseBgpSummary "10.0.0.1 4 65001 x").routerId = none ∧
     getBgpConfig c5t = (.ok (parseBgpSummary "10.0.0.1 4 65001 x"), 1)) :=
  ⟨getBgpConfig_disabled_summary.1 c5tNotActive "BGP not active" rfl (by decide),
   getBgpConfig_disabled_summary.2 c5t "10.0.0.1 4 65001 x" rfl (by decide)⟩

/-! ## C2 (amended): how processSwitchData actually degrades -/

/-- Auxiliary: a list shorter than 5 has no element at index 4. -/
theorem getElem4_eq_none_of_len_lt {α : Type} (l : List α) (h : l.length < 5) :
    l[4]? = none := by
  apply List.getElem?_eq_none
  omega

/-- C2 amended: `processSwitchData` fails with the incomplete-data error
whenever fewer than 4 results are present, but not *only* then: a
4-result array (temperature result absent) throws a TypeError because
`rawData[4].sensors` is read without optional chaining.  With 5 results
present (cooling and top-processes absent, the fourth result carrying an
`interfaces` map and the fifth no usable sensors), parsing succeeds and
degrades `cpuUsage` and `temperature` to 0 — but `memoryUsage` degrades to
100, since `memTotal || 1` and `memFree || 0` give `round(((1-0)/1)*100)`. -/
theorem processSwitchData_incomplete_and_degradation :
    (∀ (rid : String) (raw : List EosInfoResult), raw.length < 4 →
      processSwitchData rid raw = .error "Incomplete data received from switch") ∧
    (∀ (rid : String) (raw : List EosInfoResult), raw.length = 4 →
      processSwitchData rid raw = .error "TypeError: cannot read sensors of undefined") ∧
    (∀ (rid : String) (r0 r1 r2 r3 r4 : EosInfoResult)
        (ipIfs : List (String × IpIfEntry)),
      r3.ipInterfaces = some ipIfs → r4.sensors = none →
      (processSwitchData rid [r0, r1, r2, r3, r4]).toOption.map SwitchSummary.cpuUsage =
          some 0 ∧
        (processSwitchData rid [r0, r1, r2, r3, r4]).toOption.map SwitchSummary.memoryUsage =
          some 100 ∧
        (processSwitchData rid [r0, r1, r2, r3, r4]).toOption.map SwitchSummary.temperature =
          some 0) := by
  refine ⟨?_, ?_, ?_⟩
  · intro rid raw h
    unfold processSwitchData
    rw [if_pos h]
  · intro rid raw h
    unfold processSwitchData
    rw [if_neg (by omega), getElem4_eq_none_of_len_lt raw (by omega)]
  · intro rid r0 r1 r2 r3 r4 ipIfs h3 h4
    simp only [processSwitchData]
    norm_num [h3, h4, jsOrQ, jsRound, Except.toOption]

/-- C2 witness: a 3-result array raises the incomplete-data error, the
4-result fixture raises the TypeError, and the 5-result fixture succeeds
with `cpuUsage = 0`, `memoryUsage = 100`, `temperature = 0`. -/
theorem processSwitchData_incomplete_and_degradation_witness :
    processSwitchData "r" [{}, {}, {}] = .error "Incomplete data received from switch" ∧
    processSwitchData "r" c2raw4 = .error "TypeError: cannot read sensors of undefined" ∧
    ((processSwitchData "r" [{}, {}, {}, { ipInterfaces := some [] }, {}]).toOption.map
        SwitchSummary.cpuUsage = some 0 ∧
      (processSwitchData "r" [{}, {}, {}, { ipInterfaces := some [] }, {}]).toOption.map
        SwitchSummary.memoryUsage = some 100 ∧
      (processSwitchData "r" [{}, {}, {}, { ipInterfaces := some [] }, {}]).toOption.map
        SwitchSummary.temperature = some 0) :=
  ⟨processSwitchData_incomplete_and_degradation.1 "r" [{}, {}, {}] (by decide),
   processSwitchData_incomplete_and_degradation.2.1 "r" c2raw4 (by decide),
   processSwitchData_incomplete_and_degradation.2.2 "r" {} {} {}
     { ipInterfaces := some [] } {} [] rfl rfl⟩

/-! ## C7 (amended): the CPU usage clamp is upper-only -/

/-- Auxiliary: the process-CPU fold is nonnegative when every summand is. -/
theorem cpuReduce_foldl_nonneg (ps : List ProcEntry) (acc : ℚ) (hacc : 0 ≤ acc)
    (h : ∀ p ∈ ps, 0 ≤ jsOrQ p.cpuPct 0) :
    0 ≤ ps.foldl (fun total p => total + jsOrQ p.cpuPct 0) acc := by
  induction ps generalizing acc with
  | nil => exact hacc
  | cons p rest ih =>
    exact ih _ (add_nonneg hacc (h p (by simp))) (fun q hq => h q (by simp [hq]))

/-- Auxiliary: `x || 0` on a present number is the number itself. -/
theorem jsOrQ_some_zero (q : ℚ) : jsOrQ (some q) 0 = q := by
  unfold jsOrQ
  split <;> simp_all

/-- C7 amended: for every well-formed 7-result input, `cpuUsage` is the
per-process CPU percentages summed, rounded, and clamped **above** at 100
(`Math.min(Math.round(sum), 100)`); there is no lower clamp, so
`0 ≤ cpuUsage ≤ 100` holds provided every per-process percentage is
nonnegative. -/
theorem processSwitchData_cpu_clamp (rid : String)
    (r0 r1 r2 r3 r4 r5 r6 : EosInfoResult)
    (ipIfs : List (String × IpIfEntry)) (ps : List ProcEntry)
    (h3 : r3.ipInterfaces = some ipIfs) (h6 : r6.processes = some ps)
    (hpos : ∀ p ∈ ps, 0 ≤ jsOrQ p.cpuPct 0) :
    (processSwitchData rid [r0, r1, r2, r3, r4, r5, r6]).toOption.map
        SwitchSummary.cpuUsage = some (min (jsRound (cpuReduce ps)) 100) ∧
      0 ≤ min (jsRound (cpuReduce ps)) 100 ∧ min (jsRound (cpuReduce ps)) 100 ≤ 100 := by
  have hsum : 0 ≤ cpuReduce ps := cpuReduce_foldl_nonneg ps 0 le_rfl hpos
  have hround : 0 ≤ jsRound (cpuReduce ps) := by
    unfold jsRound
    rw [Int.le_floor]
    push_cast
    linarith
  refine ⟨?_, le_min hround (by norm_num), min_le_right _ _⟩
  simp only [processSwitchData]
  cases hm : r4.sensors <;>
    simp [h3, h6, hm, jsOrQ_some_zero, Except.toOption]

/-- C7 witness: two processes at 55% and 60% give
`cpuUsage = min(round(115), 100)`, within `[0, 100]`. -/
theorem processSwitchData_cpu_clamp_witness :
    (processSwitchData "r"
        [{}, {}, {}, { ipInterfaces := some [] }, {}, {},
         { processes := some [{ cpuPct := some 55 }, { cpuPct := some 60 }] }]).toOption.map
        SwitchSummary.cpuUsage =
      some (min (jsRound (cpuReduce [{ cpuPct := some 55 }, { cpuPct := some 60 }])) 100) ∧
    0 ≤ min (jsRound (cpuReduce [{ cpuPct := some 55 }, { cpuPct := some 60 }])) 100 ∧
    min (jsRound (cpuReduce [{ cpuPct := some 55 }, { cpuPct := some 60 }])) 100 ≤ 100 :=
  processSwitchData_cpu_clamp "r" {} {} {} { ipInterfaces := some [] } {} {}
    { processes := some [{ cpuPct := some 55 }, { cpuPct := some 60 }] } []
    [{ cpuPct := some 55 }, { cpuPct := some 60 }] rfl rfl (by decide)

/-! ## C8: the parser drops CPU*/Loop* names and keeps everything else -/

/-- Auxiliary: membership through comparator insertion. -/
theorem mem_insertSorted {α : Type} (cmp : α → α → Int) (x a : α) (l : List α) :
    a ∈ insertSorted cmp x l ↔ a = x ∨ a ∈ l := by
  induction l with
  | nil => simp [insertSorted]
  | cons b bs ih =>
    unfold insertSorted
    split
    · simp
    · simp only [List.mem_cons, ih]
      tauto

/-- Auxiliary: the comparator sort permutes membership. -/
theorem mem_sortByCmp {α : Type} (cmp : α → α → Int) (a : α) (l : List α) :
    a ∈ sortByCmp cmp l ↔ a ∈ l := by
  induction l with
  | nil => exact Iff.rfl
  | cons b bs ih =>
    show a ∈ insertSorted cmp b (sortByCmp cmp bs) ↔ _
    rw [mem_insertSorted, ih]
    simp

/-- C8: for every input accepted by `processInterfaceData`, no returned
record's name starts with `CPU` or `Loop` — the parser drops those names
entirely — while every other name from the union of the four command
outputs appears among the returned records. -/
theorem processInterfaceData_drops_cpu_loop (raw : List EosIfResult)
    (out : List InterfaceRecord) (r : InterfaceRecord) (name : String)
    (h : processInterfaceData raw = .ok out) :
    (r ∈ out → strStarts r.name "CPU" = false ∧ strStarts r.name "Loop" = false) ∧
    (name ∈ interfaceNameUnion raw → strStarts name "CPU" = false →
      strStarts name "Loop" = false → name ∈ out.map (fun rec => rec.name)) := by
  unfold processInterfaceData at h
  split at h
  · exact absurd h (by simp)
  · split at h
    · exact absurd h (by simp)
    · simp only [Except.ok.injEq] at h
      subst h
      constructor
      · intro hr
        rw [mem_sortByCmp, List.mem_filterMap] at hr
        obtain ⟨nm, hnm, heq⟩ := hr
        split at heq
        · exact absurd heq (by simp)
        · next hguard =>
          simp only [Option.some.injEq] at heq
          subst heq
          simp only [Bool.or_eq_true, not_or, Bool.not_eq_true] at hguard
          exact ⟨hguard.1, hguard.2⟩
      · intro hmem hc hl
        rw [List.mem_map]
        refine ⟨buildIfRecord raw name, ?_, rfl⟩
        rw [mem_sortByCmp, List.mem_filterMap]
        refine ⟨name, hmem, ?_⟩
        rw [if_neg (by simp [hc, hl])]

/-- C8 witness: on the fixture with names `Ethernet1`, `CPU`, `Loopback0`
and `Management1`, the records `c8out` are returned; the first record's
name has neither dropped prefix, and the unioned name `Ethernet1` is kept. -/
theorem processInterfaceData_drops_cpu_loop_witness :
    (({ name := "Ethernet1", type := "ethernet", status := "up" } : InterfaceRecord) ∈ c8out →
      strStarts "Ethernet1" "CPU" = false ∧ strStarts "Ethernet1" "Loop" = false) ∧
    ("Ethernet1" ∈ interfaceNameUnion c8raw → strStarts "Ethernet1" "CPU" = false →
      strStarts "Ethernet1" "Loop" = false →
      "Ethernet1" ∈ c8out.map (fun rec => rec.name)) :=
  processInterfaceData_drops_cpu_loop c8raw c8out
    { name := "Ethernet1", type := "ethernet", status := "up" } "Ethernet1" (by decide)

/-! ## C6: topology node ids are unique; same-chassis neighbors dedup -/

/-- Auxiliary: appending a fresh element preserves `Nodup`. -/
theorem nodup_snoc {α : Type} (l : List α) (a : α) (h1 : l.Nodup) (h2 : a ∉ l) :
    (l ++ [a]).Nodup := by
  rw [List.nodup_append]
  refine ⟨h1, List.nodup_singleton a, ?_⟩
  intro x hx hxa
  rw [List.mem_singleton] at hxa
  exact h2 (hxa ▸ hx)

/-- Auxiliary: the neighbor loop preserves the dedup-set invariant — node
ids stay `Nodup` and every node id stays registered in `processed`. -/
theorem processNeighbors_inv (swId : String) (ifStatuses : List (String × String))
    (nbs : List LldpNb) (st : TopoState)
    (h1 : (st.nodes.map TopoNode.id).Nodup)
    (h2 : ∀ n ∈ st.nodes, n.id ∈ st.processed) :
    ((processNeighbors swId ifStatuses nbs st).nodes.map TopoNode.id).Nodup ∧
    ∀ n ∈ (processNeighbors swId ifStatuses nbs st).nodes,
      n.id ∈ (processNeighbors swId ifStatuses nbs st).processed := by
  induction nbs generalizing st with
  | nil => exact ⟨h1, h2⟩
  | cons nb rest ih =>
    unfold processNeighbors
    split
    · exact ih _ h1 h2
    · next hnotin =>
      apply ih
      · simp only [List.map_append, List.map_cons, List.map_nil, nbNodeOf]
        apply nodup_snoc _ _ h1
        intro hmem
        rw [List.mem_map] at hmem
        obtain ⟨n, hn, hid⟩ := hmem
        exact hnotin (hid ▸ h2 n hn)
      · intro n hn
        simp only [List.mem_append, List.mem_singleton] at hn
        cases hn with
        | inl hn => simp [h2 n hn]
        | inr hn => simp [hn, nbNodeOf]

/-- Auxiliary: the switch loop preserves the dedup-set invariant. -/
theorem buildTopoAux_inv (discover : String → Option (List LldpNb × List (String × String)))
    (switches : List TopoSwitchIn) (st : TopoState)
    (h1 : (st.nodes.map TopoNode.id).Nodup)
    (h2 : ∀ n ∈ st.nodes, n.id ∈ st.processed) :
    ((buildTopoAux discover switches st).nodes.map TopoNode.id).Nodup := by
  induction switches generalizing st with
  | nil => exact h1
  | cons sw rest ih =>
    unfold buildTopoAux
    split
    · exact ih _ h1 h2
    · next hnew =>
      rw [not_or] at hnew
      have hfresh : sw.id ∉ st.nodes.map TopoNode.id := by
        intro hmem
        rw [List.mem_map] at hmem
        obtain ⟨n, hn, hid⟩ := hmem
        exact hnew.2 (hid ▸ h2 n hn)
      have h1n : ((st.nodes ++ [switchNodeOf sw]).map TopoNode.id).Nodup := by
        simp only [List.map_append, List.map_cons, List.map_nil]
        exact nodup_snoc _ _ h1 hfresh
      have h2n : ∀ n ∈ st.nodes ++ [switchNodeOf sw],
          n.id ∈ st.processed ++ [sw.id] := by
        intro n hn
        simp only [List.mem_append, List.mem_singleton] at hn
        cases hn with
        | inl hn => simp [h2 n hn]
        | inr hn => simp [hn, switchNodeOf]
      split
      · exact ih _ h1n h2n
      · next nbs ifStatuses heq =>
        have hp := processNeighbors_inv sw.id ifStatuses nbs
          { st with nodes := st.nodes ++ [switchNodeOf sw]
                    processed := st.processed ++ [sw.id] }
          h1n h2n
        exact ih _ hp.1 hp.2

/-- Auxiliary: repositioning never changes the sequence of node ids. -/
theorem assignPositions_map_id (a b : ℚ) (l : List TopoNode) (si oi : Nat) :
    (assignPositions a b l si oi).map TopoNode.id = l.map TopoNode.id := by
  induction l generalizing si oi with
  | nil => rfl
  | cons n rest ih =>
    unfold assignPositions
    split <;> simp [ih]

/-- Auxiliary: `positionNodes` never changes the sequence of node ids. -/
theorem positionNodes_map_id (l : List TopoNode) :
    (positionNodes l).map TopoNode.id = l.map TopoNode.id := by
  unfold positionNodes
  split
  · rfl
  · rfl
  · exact assignPositions_map_id _ _ _ 0 0

/-- C6: node ids in every graph produced by `buildNetworkTopology` are
unique (the `processedNodeIds` set guards every node push), and in the
concrete scenario where two switches each report an LLDP neighbor with the
same chassis id `aa:bb`, the graph contains exactly one node for that
neighbor (id `device-aabb`) and exactly two links to it, one per
reporting switch. -/
theorem buildNetworkTopology_unique_node_ids :
    (∀ (discover : String → Option (List LldpNb × List (String × String)))
       (switches : List TopoSwitchIn),
      ((buildNetworkTopology discover switches).nodes.map TopoNode.id).Nodup) ∧
    ((c6graph.nodes.filter (fun n => n.id == "device-aabb")).length = 1 ∧
     c6graph.nodes.length = 3 ∧
     (c6graph.links.filter (fun l => l.target == "device-aabb")).length = 2 ∧
     c6graph.links.map (fun l => l.source) = ["sw1", "sw2"]) := by
  constructor
  · intro discover switches
    unfold buildNetworkTopology
    split
    · simp
    · rw [positionNodes_map_id]
      exact buildTopoAux_inv discover switches _ (by simp) (by simp)
  · exact ⟨by decide, by decide, by decide, by decide⟩

/-! ## C1 (amended): refreshAllConnections rejects but partially overwrites -/

/-- Auxiliary: one unfolding step of `lookupConn`. -/
theorem lookupConn_cons (q : String × SwitchSummary) (rest : Registry) (id : String) :
    lookupConn (q :: rest) id =
      if q.1 == id then some q.2 else lookupConn rest id := by
  unfold lookupConn
  rw [List.find?_cons]
  cases hq : q.1 == id <;> simp [hq]

/-- Auxiliary: a stored entry's key always resolves. -/
theorem lookup_isSome_of_mem (reg : Registry) (p : String × SwitchSummary)
    (h : p ∈ reg) : (lookupConn reg p.1).isSome = true := by
  induction reg with
  | nil => simp at h
  | cons q rest ih =>
    rw [lookupConn_cons]
    by_cases hq : q.1 == p.1
    · rw [if_pos hq]
      rfl
    · rw [if_neg hq]
      rcases List.mem_cons.mp h with hpq | hp
      · exact absurd (by simp [hpq]) hq
      · exact ih hp

/-- Auxiliary: with unique keys, a stored entry resolves to its own value. -/
theorem lookup_eq_of_mem_nodup (reg : Registry) (p : String × SwitchSummary)
    (hnd : (reg.map (fun q => q.1)).Nodup) (h : p ∈ reg) :
    lookupConn reg p.1 = some p.2 := by
  induction reg with
  | nil => simp at h
  | cons q rest ih =>
    simp only [List.map_cons, List.nodup_cons] at hnd
    rw [lookupConn_cons]
    rcases List.mem_cons.mp h with hpq | hp
    · subst hpq
      rw [if_pos (by simp)]
    · have hne : ¬(q.1 == p.1) = true := by
        simp only [beq_iff_eq]
        intro heq
        exact hnd.1 (heq ▸ List.mem_map.mpr ⟨p, hp, rfl⟩)
      rw [if_neg hne]
      exact ih hnd.2 hp

/-- Auxiliary: replacing a present key makes it resolve to the new value. -/
theorem lookup_map_replace_self (reg : Registry) (id : String) (s : SwitchSummary)
    (h : (lookupConn reg id).isSome = true) :
    lookupConn (reg.map (fun p => if p.1 == id then (id, s) else p)) id = some s := by
  induction reg with
  | nil => simp [lookupConn] at h
  | cons q rest ih =>
    rw [List.map_cons]
    by_cases hq : q.1 == id
    · rw [if_pos hq, lookupConn_cons, if_pos (by simp)]
    · rw [if_neg hq, lookupConn_cons, if_neg hq]
      rw [lookupConn_cons, if_neg hq] at h
      exact ih h

/-- Auxiliary: replacing one key leaves every other key's resolution
unchanged. -/
theorem lookup_map_replace_other (reg : Registry) (id : String) (s : SwitchSummary)
    (id' : String) (hne : id' ≠ id) :
    lookupConn (reg.map (fun p => if p.1 == id then (id, s) else p)) id' =
      lookupConn reg id' := by
  induction reg with
  | nil => rfl
  | cons q rest ih =>
    rw [List.map_cons]
    by_cases hq : q.1 == id
    · have hq1 : ¬((id, s).1 == id') = true := by
        simp only [beq_iff_eq]
        exact fun heq => hne heq.symm
      have hq2 : ¬(q.1 == id') = true := by
        simp only [beq_iff_eq] at hq ⊢
        rw [hq]
        exact fun heq => hne heq.symm
      rw [if_pos hq, lookupConn_cons, if_neg hq1, lookupConn_cons, if_neg hq2]
      exact ih
    · rw [if_neg hq, lookupConn_cons, lookupConn_cons]
      by_cases hq' : q.1 == id'
      · rw [if_pos hq', if_pos hq']
      · rw [if_neg hq', if_neg hq']
        exact ih

/-- Auxiliary: appending a fresh key leaves other keys' resolution
unchanged. -/
theorem lookup_append_other (reg : Registry) (id : String) (s : SwitchSummary)
    (id' : String) (hne : id' ≠ id) :
    lookupConn (reg ++ [(id, s)]) id' = lookupConn reg id' := by
  induction reg with
  | nil =>
    rw [List.nil_append, lookupConn_cons, if_neg (by simpa using fun h => hne h.symm)]
  | cons q rest ih =>
    rw [List.cons_append, lookupConn_cons, lookupConn_cons]
    by_cases hq : q.1 == id'
    · rw [if_pos hq, if_pos hq]
    · rw [if_neg hq, if_neg hq]
      exact ih

/-- Auxiliary: `connections.set` makes the written key resolve to the
written value. -/
theorem lookup_setConn_self (reg : Registry) (id : String) (s : SwitchSummary)
    (h : (lookupConn reg id).isSome = true) :
    lookupConn (setConn reg id s) id = some s := by
  unfold setConn
  rw [if_pos (by simpa [lookupConn, Option.isSome_map] using h)]
  exact lookup_map_replace_self reg id s h

/-- Auxiliary: `connections.set` leaves every other key unchanged. -/
theorem lookup_setConn_other (reg : Registry) (id : String) (s : SwitchSummary)
    (id' : String) (hne : id' ≠ id) :
    lookupConn (setConn reg id s) id' = lookupConn reg id' := by
  unfold setConn
  split
  · exact lookup_map_replace_other reg id s id' hne
  · exact lookup_append_other reg id s id' hne

/-- Auxiliary: one settled refresh promise leaves other keys unchanged. -/
theorem refreshStep_lookup_other (fetch : String → Except String SwitchSummary)
    (reg : Registry) (id id' : String) (hne : id' ≠ id) :
    lookupConn (refreshStep fetch reg id) id' = lookupConn reg id' := by
  unfold refreshStep refreshSwitchData
  cases hl : lookupConn reg id with
  | none => rfl
  | some v =>
    cases hf : fetch id with
    | error e => rfl
    | ok s => exact lookup_setConn_other reg id s id' hne

/-- Auxiliary: one settled refresh promise overwrites its own key exactly
when its fetch succeeded. -/
theorem refreshStep_lookup_self (fetch : String → Except String SwitchSummary)
    (reg : Registry) (id : String) (v : SwitchSummary)
    (h : lookupConn reg id = some v) :
    lookupConn (refreshStep fetch reg id) id =
      match fetch id with
      | .ok s => some s
      | .error _ => some v := by
  unfold refreshStep refreshSwitchData
  rw [h]
  cases hf : fetch id with
  | error e => exact h
  | ok s => exact lookup_setConn_self reg id s (by simp [h])

/-- Auxiliary: keys outside the processed id list are untouched. -/
theorem processIds_lookup_of_notmem (fetch : String → Except String SwitchSummary)
    (ids : List String) (reg : Registry) (id' : String) (h : id' ∉ ids) :
    lookupConn (processIds fetch ids reg) id' = lookupConn reg id' := by
  induction ids generalizing reg with
  | nil => rfl
  | cons a as ih =>
    simp only [List.mem_cons, not_or] at h
    unfold processIds
    rw [ih _ h.2]
    exact refreshStep_lookup_other fetch reg a id' h.1

/-- Auxiliary: after all promises settle, a processed key holds its fetch
result if the fetch succeeded and its old value otherwise. -/
theorem processIds_lookup_of_mem (fetch : String → Except String SwitchSummary)
    (ids : List String) (reg : Registry) (id : String) (v : SwitchSummary)
    (hmem : id ∈ ids) (hnd : ids.Nodup) (h : lookupConn reg id = some v) :
    lookupConn (processIds fetch ids reg) id =
      match fetch id with
      | .ok s => some s
      | .error _ => some v := by
  induction ids generalizing reg with
  | nil => simp at hmem
  | cons a as ih =>
    simp only [List.nodup_cons] at hnd
    unfold processIds
    by_cases ha : a = id
    · subst ha
      rw [processIds_lookup_of_notmem fetch as _ a hnd.1]
      exact refreshStep_lookup_self fetch reg a v h
    · have hmem' : id ∈ as := by
        rcases List.mem_cons.mp hmem with h1 | h1
        · exact absurd h1.symm ha
        · exact h1
      have h' : lookupConn (refreshStep fetch reg a) id = some v := by
        rw [refreshStep_lookup_other fetch reg a id (fun heq => ha heq.symm)]
        exact h
      exact ih _ hmem' hnd.2 h'

/-- Auxiliary: the final registry of `refreshAllConnections` is the map
after all fanned-out promises settled, whether or not the join rejected. -/
theorem refreshAll_fst (fetch : String → Except String SwitchSummary) (reg : Registry) :
    (refreshAllConnections fetch reg).1 =
      processIds fetch (reg.map (fun p => p.1)) reg := by
  simp only [refreshAllConnections]
  cases he : firstRefreshError fetch reg (List.map (fun p => p.1) reg) <;> simp [he]

/-- Auxiliary: a member on which `f` fires makes `findSome?` fire. -/
theorem findSome?_isSome_of_mem {α β : Type} (f : α → Option β) (l : List α) (x : α)
    (hx : x ∈ l) (hf : (f x).isSome = true) : (l.findSome? f).isSome = true := by
  induction l with
  | nil => simp at hx
  | cons a as ih =>
    rw [List.findSome?_cons]
    cases hfa : f a with
    | some b => simp
    | none =>
      rcases List.mem_cons.mp hx with h1 | h1
      · rw [h1, hfa] at hf
        simp at hf
      · exact ih h1

/-- C1 amended: over a registry with `Nodup` keys (the `Map` invariant),
if any session's fetch rejects then `refreshAllConnections` rejects; a
session whose fetch rejected still holds its pre-refresh summary
afterwards, but every session whose fetch succeeded holds its **new**
summary — the rejection does not roll back the successful refreshes, so
`getAllSwitchData()` does not reflect the pre-refresh summaries for all
sessions. -/
theorem refreshAllConnections_behavior (fetch : String → Except String SwitchSummary)
    (reg : Registry) (hnd : (reg.map (fun p => p.1)).Nodup) :
    (∀ p ∈ reg, exIsOk (fetch p.1) = false →
      exIsOk (refreshAllConnections fetch reg).2 = false) ∧
    (∀ p ∈ reg, ∀ e, fetch p.1 = .error e →
      lookupConn (refreshAllConnections fetch reg).1 p.1 = some p.2) ∧
    (∀ p ∈ reg, ∀ s, fetch p.1 = .ok s →
      lookupConn (refreshAllConnections fetch reg).1 p.1 = some s) := by
  refine ⟨?_, ?_, ?_⟩
  · intro p hp hfail
    have hsome : (firstRefreshError fetch reg (reg.map (fun q => q.1))).isSome = true := by
      apply findSome?_isSome_of_mem _ _ p.1 (List.mem_map.mpr ⟨p, hp, rfl⟩)
      unfold refreshSwitchData
      cases hl : lookupConn reg p.1 with
      | none => simp [lookup_isSome_of_mem reg p hp, hl] at *
      | some v =>
        cases hf : fetch p.1 with
        | error e => simp
        | ok s => simp [hf, exIsOk] at hfail
    unfold refreshAllConnections
    cases he : firstRefreshError fetch reg (reg.map (fun q => q.1)) with
    | none => rw [he] at hsome; simp at hsome
    | some e => simp [he, exIsOk]
  · intro p hp e hf
    rw [refreshAll_fst]
    rw [processIds_lookup_of_mem fetch _ reg p.1 p.2 (List.mem_map.mpr ⟨p, hp, rfl⟩) hnd
      (lookup_eq_of_mem_nodup reg p hnd hp)]
    rw [hf]
  · intro p hp s hf
    rw [refreshAll_fst]
    rw [processIds_lookup_of_mem fetch _ reg p.1 p.2 (List.mem_map.mpr ⟨p, hp, rfl⟩) hnd
      (lookup_eq_of_mem_nodup reg p hnd hp)]
    rw [hf]

/-- C1 witness: in the two-session fixture the aggregate rejects, the
failed session `b` keeps its pre-refresh summary, and the succeeded
session `a` now stores the refreshed summary. -/
theorem refreshAllConnections_behavior_witness :
    exIsOk (refreshAllConnections c1fetch c1reg).2 = false ∧
    lookupConn (refreshAllConnections c1fetch c1reg).1 "b" = some c1sB ∧
    lookupConn (refreshAllConnections c1fetch c1reg).1 "a" = some c1sA2 :=
  ⟨(refreshAllConnections_behavior c1fetch c1reg (by decide)).1 ("b", c1sB)
      (by decide) (by decide),
   (refreshAllConnections_behavior c1fetch c1reg (by decide)).2.1 ("b", c1sB)
      (by decide) "Error: fetch failed" (by decide),
   (refreshAllConnections_behavior c1fetch c1reg (by decide)).2.2 ("a", c1sA)
      (by decide) c1sA2 (by decide)⟩
